import Mathlib

/-!
A shallow embedding of `app.py`, a Flask relay in front of the WhatsApp
Cloud API, together with proofs about its endpoint handlers.

The embedding models:
* Python dicts with string keys and string values as association lists in
  insertion order (`Dict`), with `get`/`setitem` semantics;
* Python `str.split` with an explicit separator (`pySplit`), so that
  `"".split(",") = [""]`;
* the JSON values moved between the service and its upstream (`JsonVal`);
* upstream HTTP effects as explicit outcome parameters: each handler takes
  the outcome of the `requests` call(s) it would make, and returns both the
  Flask response it produces and the upstream calls it issued.  A handler
  that lets a Python exception escape (and so would surface as a Flask 500,
  not as one of its own responses) is modelled with an explicit error value.

Time-zone convention: `datetime.fromisoformat(s).timestamp()` interprets a
naive datetime in the server's local time zone; the embedding fixes that
local zone to UTC.
-/

namespace WaApi

/-- JSON values, as relayed between the service and the upstream API. -/
inductive JsonVal where
  | null
  | bool (b : Bool)
  | num (n : Int)
  | str (s : String)
  | arr (xs : List JsonVal)
  | obj (fields : List (String × JsonVal))

/-- A Python dict with string keys and values: an association list in
insertion order, no duplicate handling beyond first-match lookup. -/
abbrev Dict := List (String × String)

/-- `d.get(k)` on a Python dict: the value at the first matching key. -/
def dictGet (d : Dict) (k : String) : Option String :=
  match d.find? (fun p => p.1 == k) with
  | some p => some p.2
  | none => none

/-- `d.get(k, dflt)` on a Python dict. -/
def dictGetD (d : Dict) (k : String) (dflt : String) : String :=
  (dictGet d k).getD dflt

/-- `d[k] = v` on a Python dict: overwrite in place if the key exists,
append otherwise. -/
def dictSet (d : Dict) (k : String) (v : String) : Dict :=
  match d with
  | [] => [(k, v)]
  | (k₁, v₁) :: rest =>
      if k₁ == k then (k₁, v) :: rest else (k₁, v₁) :: dictSet rest k v

/-- Split a character list at every occurrence of `sep`; the empty list
splits to `[[]]`. -/
def splitOnChar (sep : Char) : List Char → List (List Char)
  | [] => [[]]
  | c :: rest =>
    match splitOnChar sep rest with
    | [] => [[]]
    | cur :: parts =>
        if c = sep then [] :: cur :: parts else (c :: cur) :: parts

/-- Python `s.split(sep)` for a one-character separator; in particular
`pySplit "" ',' = [""]`. -/
def pySplit (s : String) (sep : Char) : List String :=
  (splitOnChar sep s.data).map String.mk

/-- The key the send loop synthesizes for the recipient at 0-based
position `i`: Python `f"user{i+1}"`. -/
def userKey (i : Nat) : String :=
  "user" ++ Nat.repr (i + 1)

/-- Inverse of `Nat.digitChar` on decimal digits (10 elsewhere); used to
prove `Nat.repr` injective. -/
def digitVal (c : Char) : Nat :=
  if c = '0' then 0 else
  if c = '1' then 1 else
  if c = '2' then 2 else
  if c = '3' then 3 else
  if c = '4' then 4 else
  if c = '5' then 5 else
  if c = '6' then 6 else
  if c = '7' then 7 else
  if c = '8' then 8 else
  if c = '9' then 9 else 10

/-! ### `iso_to_unix` (app.py lines 20-21)

`iso_to_unix` is `int(datetime.fromisoformat(iso_timestamp).timestamp())`.
The embedding parses the `YYYY-MM-DD` and `YYYY-MM-DD?HH:MM:SS` forms that
`datetime.fromisoformat` accepts (any single separator character), and
converts through the proleptic Gregorian calendar with the server's local
zone fixed to UTC.  A string `fromisoformat` rejects is `none` (a
`ValueError` in Python). -/

/-- Gregorian leap year. -/
def isLeap (y : Nat) : Bool :=
  y % 4 == 0 && (y % 100 != 0 || y % 400 == 0)

/-- Number of days in month `m` of year `y`. -/
def daysInMonth (y m : Nat) : Nat :=
  if m == 2 then (if isLeap y then 29 else 28)
  else if m == 4 || m == 6 || m == 9 || m == 11 then 30
  else 31

/-- The number an ASCII digit run denotes. -/
def digitsToNat (l : List Char) : Nat :=
  l.foldl (fun acc c => acc * 10 + (c.toNat - 48)) 0

/-- A fixed-width run of ASCII digits, as a number. -/
def parseNatDigits (l : List Char) (len : Nat) : Option Nat :=
  if l.length = len ∧ l.all (·.isDigit) then some (digitsToNat l) else none

/-- A naive datetime, as produced by `datetime.fromisoformat`. -/
structure DateTime where
  year : Nat
  month : Nat
  day : Nat
  hour : Nat
  minute : Nat
  second : Nat
deriving DecidableEq

/-- Parse `YYYY-MM-DD` with calendar validation. -/
def parseDate (l : List Char) : Option (Nat × Nat × Nat) := do
  match splitOnChar '-' l with
  | [ys, ms, ds] =>
    let y ← parseNatDigits ys 4
    let m ← parseNatDigits ms 2
    let d ← parseNatDigits ds 2
    if 1 ≤ m ∧ m ≤ 12 ∧ 1 ≤ d ∧ d ≤ daysInMonth y m then some (y, m, d) else none
  | _ => none

/-- Parse `HH:MM:SS` with range validation. -/
def parseTime (l : List Char) : Option (Nat × Nat × Nat) := do
  match splitOnChar ':' l with
  | [hs, ms, ss] =>
    let h ← parseNatDigits hs 2
    let mi ← parseNatDigits ms 2
    let sec ← parseNatDigits ss 2
    if h ≤ 23 ∧ mi ≤ 59 ∧ sec ≤ 59 then some (h, mi, sec) else none
  | _ => none

/-- `datetime.fromisoformat`: a date, optionally followed by one separator
character and a `HH:MM:SS` time. -/
def fromisoformat (s : String) : Option DateTime := do
  let l := s.data
  if l.length = 10 then
    let (y, m, d) ← parseDate l
    some ⟨y, m, d, 0, 0, 0⟩
  else if l.length = 19 then
    let (y, m, d) ← parseDate (l.take 10)
    let (h, mi, sec) ← parseTime (l.drop 11)
    some ⟨y, m, d, h, mi, sec⟩
  else
    none

/-- Days from 1970-01-01 to year `y`, month `m`, day `d` in the proleptic
Gregorian calendar (Howard Hinnant's `days_from_civil`). -/
def daysFromCivil (y m d : Int) : Int :=
  let y₁ := if m ≤ 2 then y - 1 else y
  let era := (if 0 ≤ y₁ then y₁ else y₁ - 399) / 400
  let yoe := y₁ - era * 400
  let doy := (153 * (if 2 < m then m - 3 else m + 9) + 2) / 5 + d - 1
  let doe := yoe * 365 + yoe / 4 - yoe / 100 + doy
  era * 146097 + doe - 719468

/-- The inverse calendar map (Howard Hinnant's `civil_from_days`):
year, month and day of the day `z` days after 1970-01-01. -/
def civilFromDays (z : Int) : Int × Int × Int :=
  let z₁ := z + 719468
  let era := (if 0 ≤ z₁ then z₁ else z₁ - 146096) / 146097
  let doe := z₁ - era * 146097
  let yoe := (doe - doe / 1460 + doe / 36524 - doe / 146096) / 365
  let y := yoe + era * 400
  let doy := doe - (365 * yoe + yoe / 4 - yoe / 100)
  let mp := (5 * doy + 2) / 153
  let d := doy - (153 * mp + 2) / 5 + 1
  let m := if mp < 10 then mp + 3 else mp - 9
  (if m ≤ 2 then y + 1 else y, m, d)

/-- `datetime.timestamp()` of a naive datetime, with the local zone fixed
to UTC: whole seconds since the epoch. -/
def dtTimestamp (dt : DateTime) : Int :=
  daysFromCivil (dt.year : Int) (dt.month : Int) (dt.day : Int) * 86400
    + (dt.hour : Int) * 3600 + (dt.minute : Int) * 60 + (dt.second : Int)

/-- app.py lines 20-21: ISO timestamp to UNIX seconds; `none` models the
`ValueError` escaping the caller. -/
def iso_to_unix (iso_timestamp : String) : Option Int :=
  (fromisoformat iso_timestamp).map dtTimestamp

/-- Epoch seconds back to a (UTC) datetime, for the round-trip property. -/
def unix_to_datetime (t : Int) : DateTime :=
  let days := t.fdiv 86400
  let secs := (t - days * 86400).toNat
  let c := civilFromDays days
  { year := c.1.toNat, month := c.2.1.toNat, day := c.2.2.toNat,
    hour := secs / 3600, minute := secs % 3600 / 60, second := secs % 60 }

/-! ### `make_request` and the GET pass-through endpoints
(app.py lines 24-37 and 308-418) -/

/-- An HTTP response as `requests` presents it.  The body is modelled as
already-parsed JSON (`body`) together with its raw text (`text`): every
upstream response the relayed endpoints consume is JSON. -/
structure HttpResp where
  status_code : Nat
  body : JsonVal
  text : String

/-- Outcome of one `requests.get` call: a response, or a raised
`requests.RequestException` carrying its message. -/
inductive GetOutcome where
  | resp (r : HttpResp)
  | requestExn (msg : String)

/-- The error envelope `make_request` builds for a non-200 status. -/
def statusErrBody (status : Nat) : JsonVal :=
  .obj [("error", .str ("Request failed with status code: " ++ Nat.repr status))]

/-- app.py lines 24-37: issue a GET; on status 200 return the parsed JSON
body, on any other status an error envelope naming the status, and on a
`RequestException` an error envelope with the exception text. -/
def make_request (outcome : GetOutcome) : JsonVal :=
  match outcome with
  | .resp r =>
      if r.status_code == 200 then r.body
      else statusErrBody r.status_code
  | .requestExn e => .obj [("error", .str ("Request Exception: " ++ e))]

/-- A response the Flask app hands back: status code and JSON body.
`jsonify(x)` with no explicit status is status 200. -/
structure FlaskResponse where
  status_code : Nat
  body : JsonVal

/-- app.py lines 308-329, `/approved_templates`:
`jsonify(make_request(...))`, always HTTP 200. -/
def approved_template (outcome : GetOutcome) : FlaskResponse :=
  { status_code := 200, body := make_request outcome }

/-- app.py lines 331-352, `/rejected_templates`. -/
def rejected_templates (outcome : GetOutcome) : FlaskResponse :=
  { status_code := 200, body := make_request outcome }

/-- app.py lines 354-375, `/approved_template_contents`. -/
def approved_template_contents (outcome : GetOutcome) : FlaskResponse :=
  { status_code := 200, body := make_request outcome }

/-- app.py lines 377-399, `/rejected_template_contents`. -/
def rejected_template_contents (outcome : GetOutcome) : FlaskResponse :=
  { status_code := 200, body := make_request outcome }

/-- app.py lines 401-418, `/phone_number_status`. -/
def phone_number_status (outcome : GetOutcome) : FlaskResponse :=
  { status_code := 200, body := make_request outcome }

/-! ### The `/send` dispatcher (app.py lines 39-131) -/

/-- Outcome of one `requests.post` call in the send loop: a response whose
body parses as JSON, a response whose body does not (so `response.json()`
raises), or a raised `requests` exception. -/
inductive PostOutcome where
  | json (status : Nat) (body : JsonVal)
  | badJson (status : Nat)
  | exn (msg : String)

/-- Whether the outcome is a response with a JSON body, the only case in
which the loop body runs to completion. -/
def PostOutcome.isJson : PostOutcome → Bool
  | .json _ _ => true
  | .badJson _ => false
  | .exn _ => false

/-- One `{"type": "text", "text": ...}` entry of the body component. -/
structure TextParam where
  type : String
  text : String
deriving DecidableEq

/-- One entry of `template.components`. -/
structure BodyComponent where
  type : String
  parameters : List TextParam
deriving DecidableEq

/-- The `template` object of the outbound payload. -/
structure TemplatePart where
  name : String
  language_code : String
  components : List BodyComponent
deriving DecidableEq

/-- The JSON payload POSTed to the messaging provider for one recipient
(app.py lines 87-117). -/
structure OutboundPayload where
  messaging_product : String
  recipient_type : String
  /-- The JSON key is `to` (a Lean keyword, hence the underscore). -/
  to_ : String
  type : String
  template : TemplatePart
deriving DecidableEq

/-- The fixed shape of every outbound payload: only the recipient and the
three body parameter texts vary. -/
def mkPayload (template_name to_ t₁ t₂ t₃ : String) : OutboundPayload :=
  { messaging_product := "whatsapp"
    recipient_type := "individual"
    to_ := to_
    type := "template"
    template :=
      { name := template_name
        language_code := "en_US"
        components :=
          [{ type := "body"
             parameters :=
               [{ type := "text", text := t₁ },
                { type := "text", text := t₂ },
                { type := "text", text := t₃ }] }] } }

/-- app.py lines 87-117: the payload built for recipient `recipient` at
position `i`, reading the (possibly already mutated) `template_variables`
dict `tv`. -/
def buildPayload (template_name : String) (tv : Dict) (i : Nat)
    (recipient : String) : OutboundPayload :=
  mkPayload template_name recipient
    (dictGetD tv (userKey i) "")
    (dictGetD tv "variable2" "")
    (dictGetD tv "variable3" "")

/-- The texts of the body parameters of a payload, in order. -/
def bodyTexts (p : OutboundPayload) : List String :=
  ((p.template.components.map BodyComponent.parameters).flatten).map TextParam.text

/-- The first body parameter text of a payload. -/
def firstText (p : OutboundPayload) : String :=
  (bodyTexts p).getD 0 ""

/-- A throwaway payload used as the default of `List.getD`. -/
def emptyPayload : OutboundPayload :=
  mkPayload "" "" "" "" ""

/-- app.py lines 83-129, the loop body of `send_message`: walk the
recipients from position `i` with current dict state `tv`.  For each
recipient, bind `user{i+1}` when a split name is available, build and POST
the payload, then call `response.json()`.  Returns the payloads whose POST
was attempted, and whether the loop ran to completion (`false` means an
exception escaped: either `requests.post` raised or the response body was
not JSON). -/
def send_loop (template_name : String) (variable_names : List String)
    (upstream : Nat → PostOutcome) :
    Nat → Dict → List String → List OutboundPayload × Bool
  | _, _, [] => ([], true)
  | i, tv, recipient :: rest =>
    let tv₁ := if i < variable_names.length
               then dictSet tv (userKey i) (variable_names.getD i "")
               else tv
    let payload := buildPayload template_name tv₁ i recipient
    match upstream i with
    | .json _ _ =>
        let r := send_loop template_name variable_names upstream (i + 1) tv₁ rest
        (payload :: r.1, r.2)
    | .badJson _ => ([payload], false)
    | .exn _ => ([payload], false)

/-- The payloads the loop builds, independent of the upstream outcomes:
the same recursion as `send_loop` without the POST. -/
def payloads_from (template_name : String) (variable_names : List String) :
    Nat → Dict → List String → List OutboundPayload
  | _, _, [] => []
  | i, tv, recipient :: rest =>
    let tv₁ := if i < variable_names.length
               then dictSet tv (userKey i) (variable_names.getD i "")
               else tv
    buildPayload template_name tv₁ i recipient
      :: payloads_from template_name variable_names (i + 1) tv₁ rest

/-- The parsed JSON body of a `/send` request: each field is `none` when
the key is absent.  `message_data.get("template_variables", {})` defaults
a missing map to the empty dict. -/
structure SendRequest where
  recipients : Option (List String)
  template_name : Option String
  template_variables : Option Dict

/-- What a `/send` request produces: the payloads whose POST was
attempted, and the handler's HTTP response — `none` when an exception
escaped the handler (Flask then answers 500 on its own). -/
structure SendResult where
  sent : List OutboundPayload
  response : Option (Nat × JsonVal)

/-- The 400 body of `/send`. -/
def missingParamsBody : JsonVal :=
  .obj [("error", .str "Missing required parameters")]

/-- The 200 body of `/send`. -/
def sendSuccessBody : JsonVal :=
  .obj [("message", .str "Messages sent successfully!")]

/-- app.py lines 39-131, the `/send` handler.  `not recipients or not
template_name` is Python truthiness: a missing or empty list, or a missing
or empty string, triggers the 400.  Otherwise `variable1` (default `""`)
is split on `","` and the loop runs over the recipients. -/
def send_message (req : SendRequest) (upstream : Nat → PostOutcome) :
    SendResult :=
  let recipients := req.recipients.getD []
  let template_name := req.template_name.getD ""
  let template_variables := req.template_variables.getD []
  if recipients = [] ∨ template_name = "" then
    { sent := [], response := some (400, missingParamsBody) }
  else
    let variable_names := pySplit (dictGetD template_variables "variable1" "") ','
    let r := send_loop template_name variable_names upstream 0
      template_variables recipients
    { sent := r.1,
      response := if r.2 then some (200, sendSuccessBody) else none }

/-! ### The analytics endpoints (app.py lines 133-306) -/

/-- The fields of the JSON body the three analytics handlers read; `none`
models an absent key. -/
structure AnalyticsRequest where
  start_date : Option String
  end_date : Option String
  granularity : Option String
  template_ids : Option (List String)

/-- The upstream GET query an analytics handler issues:
either `params = {"fields": ..., "access_token": ...}` or the
`/template_analytics` parameter set with a bearer-token header. -/
inductive UpstreamQuery where
  | fieldsQuery (url : String) (fields : String) (access_token : String)
  | templateQuery (url : String) (start_unix end_unix : Int)
      (granularity : Option String) (metric_types : String)
      (template_ids : List String) (access_token : String)

/-- What an analytics handler produces: the upstream calls it issued, and
its HTTP response, or the message of an exception that escaped it. -/
structure WebResult where
  calls : List UpstreamQuery
  outcome : Except String (Nat × JsonVal)

/-- Python `f"{x}"` of an `Optional[str]`: `None` prints as `"None"`. -/
def pyOptStr : Option String → String
  | some s => s
  | none => "None"

/-- The 400 body shared by `/conversation_analytics` and
`/messaging_analytics`. -/
def datesRequiredBody : JsonVal :=
  .obj [("error",
    .str "Start date and end date are required in ISO format in the request body.")]

/-- The 400 body of `/template_analytics`. -/
def templateParamsRequiredBody : JsonVal :=
  .obj [("error",
    .str "Start date, end date, and template IDs are required in the request body.")]

/-- Relay an upstream response the way the analytics handlers do:
`response.ok` (status below 400) gives `jsonify(response.json())` at
status 200, otherwise `jsonify({"error": response.text})` at the upstream
status; a raised `requests` exception escapes the handler. -/
def relayAnalytics (call : UpstreamQuery) (upstream : GetOutcome) : WebResult :=
  match upstream with
  | .resp r =>
      if r.status_code < 400 then
        { calls := [call], outcome := .ok (200, r.body) }
      else
        { calls := [call], outcome := .ok (r.status_code, .obj [("error", .str r.text)]) }
  | .requestExn e =>
      { calls := [call], outcome := .error ("requests exception: " ++ e) }

/-- app.py lines 133-184, `/conversation_analytics`: requires `start_date`
and `end_date`, defaults `granularity` to `"MONTHLY"`, and queries the
`conversation_analytics` field set. -/
def get_conversation_analytics (access_token : String)
    (data : AnalyticsRequest) (upstream : GetOutcome) : WebResult :=
  match data.start_date, data.end_date with
  | some sd, some ed =>
    match iso_to_unix sd, iso_to_unix ed with
    | some start_unix, some end_unix =>
      let granularity := data.granularity.getD "MONTHLY"
      let fields := "conversation_analytics.start(" ++ toString start_unix
        ++ ").end(" ++ toString end_unix
        ++ ").granularity(" ++ granularity
        ++ ").phone_numbers([]).dimensions(['CONVERSATION_CATEGORY','CONVERSATION_TYPE','COUNTRY','PHONE'])"
      relayAnalytics
        (.fieldsQuery "https://graph.facebook.com/v18.0/118254494612532"
          fields access_token)
        upstream
    | _, _ => { calls := [], outcome := .error "ValueError: invalid isoformat string" }
  | _, _ =>
    { calls := [], outcome := .ok (400, datesRequiredBody) }

/-- app.py lines 186-250, `/template_analytics`: requires `start_date`,
`end_date` and `template_ids`; `granularity` has no default
(`data.get("granularity")` is `None` when absent). -/
def get_template_analytics (access_token : String)
    (data : AnalyticsRequest) (upstream : GetOutcome) : WebResult :=
  match data.start_date, data.end_date, data.template_ids with
  | some sd, some ed, some template_ids =>
    match iso_to_unix sd, iso_to_unix ed with
    | some start_unix, some end_unix =>
      relayAnalytics
        (.templateQuery
          "https://graph.facebook.com/v18.0/118254494612532/template_analytics"
          start_unix end_unix data.granularity
          "['SENT','DELIVERED','READ','CLICKED']" template_ids access_token)
        upstream
    | _, _ => { calls := [], outcome := .error "ValueError: invalid isoformat string" }
  | _, _, _ =>
    { calls := [], outcome := .ok (400, templateParamsRequiredBody) }

/-- app.py lines 254-306, `/messaging_analytics`: requires `start_date`
and `end_date`; `granularity` has no default, and an absent one is
interpolated into the `fields` string as Python prints `None`. -/
def get_messaging_analytics (access_token : String)
    (data : AnalyticsRequest) (upstream : GetOutcome) : WebResult :=
  match data.start_date, data.end_date with
  | some sd, some ed =>
    match iso_to_unix sd, iso_to_unix ed with
    | some start_unix, some end_unix =>
      let fields := "analytics.start(" ++ toString start_unix
        ++ ").end(" ++ toString end_unix
        ++ ").granularity(" ++ pyOptStr data.granularity ++ ")"
      relayAnalytics
        (.fieldsQuery "https://graph.facebook.com/v18.0/118254494612532"
          fields access_token)
        upstream
    | _, _ => { calls := [], outcome := .error "ValueError: invalid isoformat string" }
  | _, _ =>
    { calls := [], outcome := .ok (400, datesRequiredBody) }

/-! ### Concrete upstream behaviours used in closed statements -/

/-- An upstream that answers every POST with an empty JSON object. -/
def jsonUpstream : Nat → PostOutcome :=
  fun _ => .json 200 (.obj [])

/-- An upstream whose first POST raises a connection error and which
answers later POSTs normally. -/
def exnFirstUpstream : Nat → PostOutcome :=
  fun k => if k = 0 then .exn "connection refused" else .json 200 (.obj [])

/-- An upstream that answers every POST with an HTTP 500 JSON error. -/
def json500Upstream : Nat → PostOutcome :=
  fun _ => .json 500 (.obj [("error", .str "upstream failure")])

/-- A concrete upstream 500 response. -/
def resp500 : GetOutcome :=
  .resp { status_code := 500, body := .obj [], text := "Internal Server Error" }

/-- A concrete upstream 200 response with body `{"data": []}`. -/
def respData : GetOutcome :=
  .resp { status_code := 200, body := .obj [("data", .arr [])], text := "" }

/-! ## Dictionary lemmas -/

/-- Lookup on a non-empty dict, one step. -/
theorem dictGet_cons (k₁ v₁ : String) (rest : Dict) (k : String) :
    dictGet ((k₁, v₁) :: rest) k = if k₁ = k then some v₁ else dictGet rest k := by
  by_cases h : k₁ = k
  · have hb : (k₁ == k) = true := beq_iff_eq.mpr h
    simp [dictGet, List.find?, hb, h]
  · have hb : (k₁ == k) = false := beq_eq_false_iff_ne.mpr h
    simp [dictGet, List.find?, hb, h]

/-- Update on a non-empty dict, one step. -/
theorem dictSet_cons (k₁ v₁ : String) (rest : Dict) (k v : String) :
    dictSet ((k₁, v₁) :: rest) k v =
      if k₁ = k then (k₁, v) :: rest else (k₁, v₁) :: dictSet rest k v := by
  by_cases h : k₁ = k
  · simp [dictSet, h]
  · simp [dictSet, h]

/-- Reading back the key just written. -/
theorem dictGet_dictSet_self (d : Dict) (k v : String) :
    dictGet (dictSet d k v) k = some v := by
  induction d with
  | nil => simp [dictSet, dictGet_cons]
  | cons p rest ih =>
    obtain ⟨k₁, v₁⟩ := p
    rw [dictSet_cons]
    by_cases h : k₁ = k
    · rw [if_pos h, dictGet_cons, if_pos h]
    · rw [if_neg h, dictGet_cons, if_neg h, ih]

/-- Writing one key leaves every other key unchanged. -/
theorem dictGet_dictSet_ne (d : Dict) (k k' v : String) (h : k' ≠ k) :
    dictGet (dictSet d k v) k' = dictGet d k' := by
  induction d with
  | nil =>
    show dictGet [(k, v)] k' = dictGet [] k'
    rw [dictGet_cons, if_neg (Ne.symm h)]
  | cons p rest ih =>
    obtain ⟨k₁, v₁⟩ := p
    rw [dictSet_cons]
    by_cases h₁ : k₁ = k
    · have h₂ : ¬ k₁ = k' := fun hc => h (hc.symm.trans h₁)
      rw [if_pos h₁, dictGet_cons, if_neg h₂, dictGet_cons, if_neg h₂]
    · rw [if_neg h₁, dictGet_cons, dictGet_cons]
      by_cases h₂ : k₁ = k'
      · rw [if_pos h₂, if_pos h₂]
      · rw [if_neg h₂, if_neg h₂, ih]

/-! ## Injectivity of the synthesized `user{i+1}` keys

`userKey` is `"user" ++ Nat.repr (i+1)`; injectivity reduces to the
injectivity of `Nat.repr`, proved by relating the core printer
`Nat.toDigitsCore` to `Nat.digits`. -/

/-- The core decimal printer, described through `Nat.digits`. -/
theorem toDigitsCore_eq_digits :
    ∀ (fuel n : Nat) (acc : List Char), n < fuel →
      Nat.toDigitsCore 10 fuel n acc =
        (if n = 0 then ['0'] else ((Nat.digits 10 n).map Nat.digitChar).reverse) ++ acc := by
  intro fuel
  induction fuel with
  | zero => intro n acc h; omega
  | succ f ih =>
    intro n acc h
    simp only [Nat.toDigitsCore]
    by_cases h₀ : n / 10 = 0
    · rw [if_pos h₀]
      by_cases hn : n = 0
      · subst hn; rfl
      · rw [if_neg hn, Nat.digits_eq_cons_digits_div (by norm_num) hn, h₀, Nat.digits_zero]
        rfl
    · rw [if_neg h₀]
      have hn : n ≠ 0 := fun hz => h₀ (by simp [hz])
      have hf : n / 10 < f :=
        lt_of_lt_of_le (Nat.div_lt_self (Nat.pos_of_ne_zero hn) (by norm_num))
          (Nat.lt_succ_iff.mp h)
      rw [ih (n / 10) _ hf, if_neg h₀,
        Nat.digits_eq_cons_digits_div (by norm_num) hn]
      simp [hn, List.append_assoc]

/-- `Nat.repr`, described through `Nat.digits`. -/
theorem repr_eq_digits (n : Nat) :
    Nat.repr n =
      (if n = 0 then ['0'] else ((Nat.digits 10 n).map Nat.digitChar).reverse).asString := by
  rw [Nat.repr, Nat.toDigits, toDigitsCore_eq_digits (n + 1) n [] (Nat.lt_succ_self n),
    List.append_nil]

/-- `digitVal` undoes `Nat.digitChar` on decimal digits. -/
theorem digitVal_digitChar (d : Nat) (h : d < 10) : digitVal (Nat.digitChar d) = d := by
  interval_cases d <;> rfl

/-- `List.asString` is injective. -/
theorem asString_injective (l₁ l₂ : List Char) (h : l₁.asString = l₂.asString) :
    l₁ = l₂ :=
  congrArg String.data h

/-- Mapping `Nat.digitChar` over a digit string is reversible. -/
theorem map_digitVal_map_digitChar (m : Nat) :
    ((Nat.digits 10 m).map Nat.digitChar).map digitVal = Nat.digits 10 m := by
  rw [List.map_map]
  have h : ∀ x ∈ Nat.digits 10 m, (digitVal ∘ Nat.digitChar) x = id x := fun x hx =>
    digitVal_digitChar x (Nat.digits_lt_base (by norm_num) hx)
  rw [List.map_congr_left h, List.map_id]

/-- A positive number never prints as `"0"`. -/
theorem digits_print_ne_zero (b : Nat) (hb : b ≠ 0)
    (h : ['0'] = ((Nat.digits 10 b).map Nat.digitChar).reverse) : False := by
  have h₂ : (Nat.digits 10 b).map Nat.digitChar = ['0'] := by
    have h₁ := congrArg List.reverse h
    simpa using h₁.symm
  have h₃ : Nat.digits 10 b = [0] := by
    have h₄ := map_digitVal_map_digitChar b
    rw [h₂] at h₄
    simpa [digitVal] using h₄.symm
  have h₅ := Nat.ofDigits_digits 10 b
  rw [h₃] at h₅
  simp [Nat.ofDigits] at h₅
  exact hb h₅.symm

/-- The decimal printer is injective. -/
theorem nat_repr_injective (a b : Nat) (h : Nat.repr a = Nat.repr b) : a = b := by
  rw [repr_eq_digits, repr_eq_digits] at h
  have h' := asString_injective _ _ h
  by_cases ha : a = 0 <;> by_cases hb : b = 0
  · exact ha.trans hb.symm
  · rw [if_pos ha, if_neg hb] at h'
    exact absurd h' (fun hc => digits_print_ne_zero b hb hc)
  · rw [if_neg ha, if_pos hb] at h'
    exact absurd h'.symm (fun hc => digits_print_ne_zero a ha hc)
  · rw [if_neg ha, if_neg hb] at h'
    have h₂ : (Nat.digits 10 a).map Nat.digitChar = (Nat.digits 10 b).map Nat.digitChar :=
      List.reverse_injective h'
    have h₃ : Nat.digits 10 a = Nat.digits 10 b := by
      rw [← map_digitVal_map_digitChar a, ← map_digitVal_map_digitChar b, h₂]
    exact Nat.digits.injective 10 h₃

/-- The characters of a synthesized key. -/
theorem userKey_data (i : Nat) :
    (userKey i).data = 'u' :: 's' :: 'e' :: 'r' :: (Nat.repr (i + 1)).data := by
  show ("user" ++ Nat.repr (i + 1)).data = _
  rw [String.data_append]
  rfl

/-- Distinct positions synthesize distinct keys. -/
theorem userKey_injective {i j : Nat} (h : userKey i = userKey j) : i = j := by
  have h₁ := congrArg String.data h
  rw [userKey_data, userKey_data] at h₁
  have h₂ : (Nat.repr (i + 1)).data = (Nat.repr (j + 1)).data := by
    simpa using h₁
  have h₃ := nat_repr_injective (i + 1) (j + 1) (String.ext h₂)
  omega

/-- No synthesized key is the reserved key `variable1`. -/
theorem userKey_ne_variable1 (i : Nat) : userKey i ≠ "variable1" := by
  intro h
  have h₁ := congrArg String.data h
  rw [userKey_data] at h₁
  injection h₁ with h₂ _
  exact absurd h₂ (by decide)

/-- No synthesized key is the reserved key `variable2`. -/
theorem userKey_ne_variable2 (i : Nat) : userKey i ≠ "variable2" := by
  intro h
  have h₁ := congrArg String.data h
  rw [userKey_data] at h₁
  injection h₁ with h₂ _
  exact absurd h₂ (by decide)

/-- No synthesized key is the reserved key `variable3`. -/
theorem userKey_ne_variable3 (i : Nat) : userKey i ≠ "variable3" := by
  intro h
  have h₁ := congrArg String.data h
  rw [userKey_data] at h₁
  injection h₁ with h₂ _
  exact absurd h₂ (by decide)

/-! ## Characterizing the send loop -/

/-- One payload per recipient. -/
theorem payloads_from_length (tn : String) (vn : List String) :
    ∀ (rs : List String) (i : Nat) (tv : Dict),
      (payloads_from tn vn i tv rs).length = rs.length := by
  intro rs
  induction rs with
  | nil => intro i tv; rfl
  | cons r rest ih =>
    intro i tv
    simp only [payloads_from, List.length_cons, ih]

/-- When every upstream POST yields a response with a JSON body, the loop
builds all payloads and finishes normally. -/
theorem send_loop_eq_payloads (tn : String) (vn : List String)
    (upstream : Nat → PostOutcome) (hup : ∀ k, (upstream k).isJson = true) :
    ∀ (rs : List String) (i : Nat) (tv : Dict),
      send_loop tn vn upstream i tv rs = (payloads_from tn vn i tv rs, true) := by
  intro rs
  induction rs with
  | nil => intro i tv; rfl
  | cons r rest ih =>
    intro i tv
    have h := hup i
    simp only [send_loop, payloads_from]
    cases hu : upstream i with
    | json s b => simp [ih]
    | badJson s => rw [hu] at h; simp [PostOutcome.isJson] at h
    | exn m => rw [hu] at h; simp [PostOutcome.isJson] at h

/-- A valid request under an all-JSON upstream: the handler sends the
computed payloads and answers 200. -/
theorem send_message_valid (recipients : List String) (tn : String) (tv : Dict)
    (upstream : Nat → PostOutcome)
    (hrec : recipients ≠ []) (htn : tn ≠ "")
    (hup : ∀ k, (upstream k).isJson = true) :
    send_message ⟨some recipients, some tn, some tv⟩ upstream =
      { sent := payloads_from tn (pySplit (dictGetD tv "variable1" "") ',') 0 tv recipients,
        response := some (200, sendSuccessBody) } := by
  simp only [send_message, Option.getD_some]
  rw [if_neg (by simp [hrec, htn])]
  simp only [send_loop_eq_payloads tn _ upstream hup]
  rfl

/-- The element-wise description of the loop's payloads.  `tv` is the
current dict state, `tv₀` the original `template_variables`; the loop only
ever writes synthesized `user{k+1}` keys for positions `k` below the
length of the split list, so the reserved keys and the out-of-range
synthesized keys still read as in `tv₀`. -/
theorem payloads_from_getD (tn : String) (vn : List String) (tv₀ : Dict) :
    ∀ (rs : List String) (i : Nat) (tv : Dict) (j : Nat), j < rs.length →
      (∀ k, vn.length ≤ k → dictGet tv (userKey k) = dictGet tv₀ (userKey k)) →
      dictGet tv "variable2" = dictGet tv₀ "variable2" →
      dictGet tv "variable3" = dictGet tv₀ "variable3" →
      (payloads_from tn vn i tv rs).getD j emptyPayload =
        mkPayload tn (rs.getD j "")
          (if i + j < vn.length then vn.getD (i + j) ""
           else dictGetD tv₀ (userKey (i + j)) "")
          (dictGetD tv₀ "variable2" "") (dictGetD tv₀ "variable3" "") := by
  intro rs
  induction rs with
  | nil => intro i tv j hj; exact absurd hj (by simp)
  | cons r rest ih =>
    intro i tv j hj hpre hv2 hv3
    simp only [payloads_from]
    set tv₁ := if i < vn.length
               then dictSet tv (userKey i) (vn.getD i "")
               else tv with htv₁
    have hpre₁ : ∀ k, vn.length ≤ k →
        dictGet tv₁ (userKey k) = dictGet tv₀ (userKey k) := by
      intro k hk
      rw [htv₁]
      by_cases hi : i < vn.length
      · rw [if_pos hi, dictGet_dictSet_ne _ _ _ _
          (fun hc => by have := userKey_injective hc; omega)]
        exact hpre k hk
      · rw [if_neg hi]; exact hpre k hk
    have hv2₁ : dictGet tv₁ "variable2" = dictGet tv₀ "variable2" := by
      rw [htv₁]
      by_cases hi : i < vn.length
      · rw [if_pos hi, dictGet_dictSet_ne _ _ _ _ (Ne.symm (userKey_ne_variable2 i))]
        exact hv2
      · rw [if_neg hi]; exact hv2
    have hv3₁ : dictGet tv₁ "variable3" = dictGet tv₀ "variable3" := by
      rw [htv₁]
      by_cases hi : i < vn.length
      · rw [if_pos hi, dictGet_dictSet_ne _ _ _ _ (Ne.symm (userKey_ne_variable3 i))]
        exact hv3
      · rw [if_neg hi]; exact hv3
    cases j with
    | zero =>
      simp only [List.getD_cons_zero, Nat.add_zero]
      unfold buildPayload
      have h₁ : dictGetD tv₁ (userKey i) "" =
          (if i < vn.length then vn.getD i "" else dictGetD tv₀ (userKey i) "") := by
        by_cases hi : i < vn.length
        · rw [if_pos hi, htv₁, if_pos hi]
          unfold dictGetD
          rw [dictGet_dictSet_self]
          rfl
        · rw [if_neg hi, htv₁, if_neg hi]
          unfold dictGetD
          rw [hpre i (Nat.le_of_not_lt hi)]
      have h₂ : dictGetD tv₁ "variable2" "" = dictGetD tv₀ "variable2" "" := by
        unfold dictGetD; rw [hv2₁]
      have h₃ : dictGetD tv₁ "variable3" "" = dictGetD tv₀ "variable3" "" := by
        unfold dictGetD; rw [hv3₁]
      rw [h₁, h₂, h₃]
    | succ j' =>
      simp only [List.getD_cons_succ]
      have hj' : j' < rest.length := by simpa using hj
      have := ih (i + 1) tv₁ j' hj' hpre₁ hv2₁ hv3₁
      rw [this]
      have harith : i + 1 + j' = i + (j' + 1) := by omega
      rw [harith]

/-- The body texts of a payload in the fixed shape. -/
theorem bodyTexts_mkPayload (a b t₁ t₂ t₃ : String) :
    bodyTexts (mkPayload a b t₁ t₂ t₃) = [t₁, t₂, t₃] := rfl

/-- The first body text of a payload in the fixed shape. -/
theorem firstText_mkPayload (a b t₁ t₂ t₃ : String) :
    firstText (mkPayload a b t₁ t₂ t₃) = t₁ := rfl

/-- Whatever the upstream outcome, an analytics handler that reaches its
`requests.get` records exactly that one call. -/
theorem relayAnalytics_calls (call : UpstreamQuery) (u : GetOutcome) :
    (relayAnalytics call u).calls = [call] := by
  cases u with
  | resp r => by_cases h : r.status_code < 400 <;> simp [relayAnalytics, h]
  | requestExn e => rfl

/-! ## The claims -/

/-- Claim C1, counterexample.  The claim predicts that a recipient at
position `i` with no `variable1` name available gets the empty string as
first body parameter.  With recipients `["a","b"]`, no `variable1`, and a
caller-supplied key `"user2"`, the second recipient's first body parameter
is the caller's value `"Z"`, not `""`: the synthesized keys share the
namespace of `template_variables` (compare C9). -/
theorem send_firstParam_counterexample :
    (send_message ⟨some ["a", "b"], some "t", some [("user2", "Z")]⟩
        jsonUpstream).sent.map bodyTexts = [["", "", ""], ["Z", "", ""]] ∧
    ("Z" : String) ≠ "" :=
  ⟨by decide, by decide⟩

/-- Claim C1 (amended): in `/send`, `variable1` (missing treated as absent)
is split on `','` into `names`; provided the caller's `template_variables`
holds no key of the form `user{j+1}`, the first body parameter of the
recipient at position `j` is `names[j]` when `j < len(names)` and the empty
string otherwise; and (unconditionally) a one-recipient request with no
`variable1`, `variable2`, `variable3` sends all three parameters empty. -/
theorem send_firstParam_amended
    (recipients : List String) (template_name : String) (tv : Dict)
    (upstream : Nat → PostOutcome)
    (hrec : recipients ≠ []) (htn : template_name ≠ "")
    (hup : ∀ k, (upstream k).isJson = true)
    (huser : ∀ j, dictGet tv (userKey j) = none) :
    ((send_message ⟨some recipients, some template_name, some tv⟩ upstream).sent.length
        = recipients.length) ∧
    (∀ j, j < recipients.length →
      firstText
        ((send_message ⟨some recipients, some template_name, some tv⟩ upstream).sent.getD
          j emptyPayload) =
        (match dictGet tv "variable1" with
         | some s =>
            if j < (pySplit s ',').length then (pySplit s ',').getD j "" else ""
         | none => "")) ∧
    (∀ r tv₂, dictGet tv₂ "variable1" = none → dictGet tv₂ "variable2" = none →
      dictGet tv₂ "variable3" = none →
      (send_message ⟨some [r], some template_name, some tv₂⟩ upstream).sent.map bodyTexts
        = [["", "", ""]]) := by
  refine ⟨?_, ?_, ?_⟩
  · rw [send_message_valid _ _ _ _ hrec htn hup]
    exact payloads_from_length _ _ _ _ _
  · intro j hj
    rw [send_message_valid _ _ _ _ hrec htn hup]
    have hm := payloads_from_getD template_name
      (pySplit (dictGetD tv "variable1" "") ',') tv recipients 0 tv j hj
      (fun k _ => rfl) rfl rfl
    simp only [Nat.zero_add] at hm
    rw [hm, firstText_mkPayload]
    cases hv : dictGet tv "variable1" with
    | some s =>
      have hd : dictGetD tv "variable1" "" = s := by unfold dictGetD; rw [hv]; rfl
      have hu : dictGetD tv (userKey j) "" = "" := by
        unfold dictGetD; rw [huser j]; rfl
      rw [hd, hu]
    | none =>
      have hd : dictGetD tv "variable1" "" = "" := by unfold dictGetD; rw [hv]; rfl
      rw [hd]
      cases j with
      | zero => rfl
      | succ j' =>
        have hlt : ¬ (j' + 1 < (pySplit "" ',').length) := by
          simp [pySplit, splitOnChar]
        rw [if_neg hlt]
        unfold dictGetD
        rw [huser (j' + 1)]
        rfl
  · intro r tv₂ hv1 hv2 hv3
    rw [send_message_valid [r] template_name tv₂ upstream (by simp) htn hup]
    have hvn : pySplit (dictGetD tv₂ "variable1" "") ',' = [""] := by
      unfold dictGetD
      rw [hv1]
      rfl
    rw [hvn]
    have h₁ : dictGetD (dictSet tv₂ (userKey 0) "") (userKey 0) "" = "" := by
      unfold dictGetD
      rw [dictGet_dictSet_self]
      rfl
    have h₂ : dictGetD (dictSet tv₂ (userKey 0) "") "variable2" "" = "" := by
      unfold dictGetD
      rw [dictGet_dictSet_ne _ _ _ _ (Ne.symm (userKey_ne_variable2 0)), hv2]
      rfl
    have h₃ : dictGetD (dictSet tv₂ (userKey 0) "") "variable3" "" = "" := by
      unfold dictGetD
      rw [dictGet_dictSet_ne _ _ _ _ (Ne.symm (userKey_ne_variable3 0)), hv3]
      rfl
    simp [payloads_from, buildPayload, bodyTexts_mkPayload, h₁, h₂, h₃]

/-- Claim C1, witness: the amended theorem applied to recipients
`["a","b"]`, template `"welcome"`, an empty variable map and an all-JSON
upstream; the one-recipient instance shows the three empty parameters. -/
theorem send_firstParam_amended_witness :
    ((send_message ⟨some ["a", "b"], some "welcome", some []⟩ jsonUpstream).sent.length
        = 2) ∧
    (send_message ⟨some ["r1"], some "welcome", some []⟩ jsonUpstream).sent.map bodyTexts
        = [["", "", ""]] := by
  have h := send_firstParam_amended ["a", "b"] "welcome" [] jsonUpstream
    (by decide) (by decide) (fun k => rfl) (fun j => rfl)
  exact ⟨h.1, h.2.2 "r1" [] rfl rfl rfl⟩

/-- Claim C2: with recipients `["a","b"]` and `template_variables`
`{"variable1":"X,Y","variable2":"V2","variable3":"V3"}`, one message is
produced per recipient in list order, with body parameters
`["X","V2","V3"]` for `"a"` and `["Y","V2","V3"]` for `"b"`. -/
theorem send_two_recipients_payloads
    (template_name : String) (upstream : Nat → PostOutcome)
    (htn : template_name ≠ "") (hup : ∀ k, (upstream k).isJson = true) :
    (send_message ⟨some ["a", "b"], some template_name,
        some [("variable1", "X,Y"), ("variable2", "V2"), ("variable3", "V3")]⟩
        upstream).sent.map (fun p => (p.to_, bodyTexts p))
      = [("a", ["X", "V2", "V3"]), ("b", ["Y", "V2", "V3"])] := by
  rw [send_message_valid _ _ _ _ (by decide) htn hup]
  rfl

/-- Claim C2, witness: the theorem applied to template `"welcome"` and an
all-JSON upstream. -/
theorem send_two_recipients_payloads_witness :
    (send_message ⟨some ["a", "b"], some "welcome",
        some [("variable1", "X,Y"), ("variable2", "V2"), ("variable3", "V3")]⟩
        jsonUpstream).sent.map (fun p => (p.to_, bodyTexts p))
      = [("a", ["X", "V2", "V3"]), ("b", ["Y", "V2", "V3"])] :=
  send_two_recipients_payloads "welcome" jsonUpstream (by decide) (fun k => rfl)

/-- Claim C3: a `/send` request with `recipients` empty or absent, or
`template_name` absent, gets HTTP 400 with body
`{"error": "Missing required parameters"}`, and no outbound message is
sent for any recipient. -/
theorem send_missing_params_rejected
    (req : SendRequest) (upstream : Nat → PostOutcome)
    (h : req.recipients = none ∨ req.recipients = some [] ∨
      req.template_name = none) :
    send_message req upstream =
      { sent := [], response := some (400, missingParamsBody) } := by
  obtain ⟨rs, tn, tv⟩ := req
  rcases h with h | h | h <;>
    simp_all [send_message]

/-- Claim C3, witness: the theorem applied to a request with recipients
present but a missing template name. -/
theorem send_missing_params_rejected_witness :
    send_message ⟨some ["a"], none, some []⟩ jsonUpstream =
      { sent := [], response := some (400, missingParamsBody) } :=
  send_missing_params_rejected ⟨some ["a"], none, some []⟩ jsonUpstream
    (Or.inr (Or.inr rfl))

/-- Claim C4, counterexample.  The claim says an erroring upstream call
neither stops processing of later recipients nor changes the 200 success
response.  With two recipients and a `requests.post` that raises on the
first call, the handler attempts only one POST (the second recipient is
never processed) and terminates by exception, producing no 200 response:
`send_message` has no `try/except` around the loop. -/
theorem send_upstream_exception_counterexample :
    ((send_message ⟨some ["a", "b"], some "t", some []⟩ exnFirstUpstream).response
        = none) ∧
    (send_message ⟨some ["a", "b"], some "t", some []⟩ exnFirstUpstream).sent.length
        = 1 :=
  ⟨rfl, by decide⟩

/-- Claim C4 (amended): for a valid `/send` request, as long as every
upstream POST returns a response whose body parses as JSON — whatever its
HTTP status, including failure statuses — the handler processes every
recipient and answers 200 with the success body; an upstream call that
raises (or whose body is not JSON) instead aborts the handler. -/
theorem send_success_despite_status
    (recipients : List String) (template_name : String) (tv : Dict)
    (upstream : Nat → PostOutcome)
    (hrec : recipients ≠ []) (htn : template_name ≠ "")
    (hup : ∀ k, (upstream k).isJson = true) :
    ((send_message ⟨some recipients, some template_name, some tv⟩ upstream).response
        = some (200, sendSuccessBody)) ∧
    ((send_message ⟨some recipients, some template_name, some tv⟩ upstream).sent.length
        = recipients.length) := by
  rw [send_message_valid _ _ _ _ hrec htn hup]
  exact ⟨rfl, payloads_from_length _ _ _ _ _⟩

/-- Claim C4, witness: the amended theorem applied to two recipients and
an upstream that answers every POST with an HTTP 500 JSON error — the
response is still the 200 success. -/
theorem send_success_despite_status_witness :
    ((send_message ⟨some ["a", "b"], some "welcome", some []⟩ json500Upstream).response
        = some (200, sendSuccessBody)) ∧
    ((send_message ⟨some ["a", "b"], some "welcome", some []⟩ json500Upstream).sent.length
        = 2) :=
  send_success_despite_status ["a", "b"] "welcome" [] json500Upstream
    (by decide) (by decide) (fun k => rfl)

/-- Claim C5, counterexample.  The claim says an upstream 500 is relayed
with the upstream status code.  On an upstream 500, `/approved_templates`
returns the error envelope at local HTTP status 200 (bare
`jsonify(result)`), not 500. -/
theorem relay_status_counterexample :
    approved_template resp500 = ⟨200, statusErrBody 500⟩ ∧ (200 : Nat) ≠ 500 :=
  ⟨rfl, by decide⟩

/-- Claim C5 (amended): the five GET pass-through endpoints always answer
at local HTTP status 200.  An upstream 200 has its JSON body relayed
unchanged; an upstream non-200 yields the envelope
`{"error": "Request failed with status code: <code>"}` — still at local
status 200, the upstream status survives only inside the message text. -/
theorem relay_always_200 (r : HttpResp) :
    (r.status_code = 200 →
      approved_template (.resp r) = ⟨200, r.body⟩ ∧
      rejected_templates (.resp r) = ⟨200, r.body⟩ ∧
      approved_template_contents (.resp r) = ⟨200, r.body⟩ ∧
      rejected_template_contents (.resp r) = ⟨200, r.body⟩ ∧
      phone_number_status (.resp r) = ⟨200, r.body⟩) ∧
    (r.status_code ≠ 200 →
      approved_template (.resp r) = ⟨200, statusErrBody r.status_code⟩ ∧
      rejected_templates (.resp r) = ⟨200, statusErrBody r.status_code⟩ ∧
      approved_template_contents (.resp r) = ⟨200, statusErrBody r.status_code⟩ ∧
      rejected_template_contents (.resp r) = ⟨200, statusErrBody r.status_code⟩ ∧
      phone_number_status (.resp r) = ⟨200, statusErrBody r.status_code⟩) := by
  constructor
  · intro h
    have hb : (r.status_code == 200) = true := beq_iff_eq.mpr h
    refine ⟨?_, ?_, ?_, ?_, ?_⟩ <;>
      simp [approved_template, rejected_templates, approved_template_contents,
        rejected_template_contents, phone_number_status, make_request, hb]
  · intro h
    have hb : (r.status_code == 200) = false := beq_eq_false_iff_ne.mpr h
    refine ⟨?_, ?_, ?_, ?_, ?_⟩ <;>
      simp [approved_template, rejected_templates, approved_template_contents,
        rejected_template_contents, phone_number_status, make_request, hb]

/-- Claim C5, witness: the amended theorem applied to an upstream 200 with
body `{"data": []}` (relayed unchanged) and to an upstream 500 (error
envelope at local status 200). -/
theorem relay_always_200_witness :
    approved_template respData = ⟨200, .obj [("data", .arr [])]⟩ ∧
    approved_template resp500 = ⟨200, statusErrBody 500⟩ :=
  ⟨((relay_always_200 ⟨200, .obj [("data", .arr [])], ""⟩).1 rfl).1,
   ((relay_always_200 ⟨500, .obj [], "Internal Server Error"⟩).2 (by decide)).1⟩

/-- Claim C6: every outbound `/send` payload has the fixed shape
`mkPayload`: `messaging_product = "whatsapp"`, `recipient_type =
"individual"`, `to` the recipient at that position, `type = "template"`,
`template.name` the request's template name, language code `"en_US"`, one
body component with exactly three `{type: "text", text: _}` parameters,
whose second text is `template_variables["variable2"]` (default `""`) and
third `template_variables["variable3"]` (default `""`), the same for all
recipients of the request. -/
theorem send_payload_shape
    (recipients : List String) (template_name : String) (tv : Dict)
    (upstream : Nat → PostOutcome)
    (hrec : recipients ≠ []) (htn : template_name ≠ "")
    (hup : ∀ k, (upstream k).isJson = true)
    (j : Nat) (hj : j < recipients.length) :
    ∃ t₁,
      (send_message ⟨some recipients, some template_name, some tv⟩ upstream).sent.getD
          j emptyPayload
        = mkPayload template_name (recipients.getD j "") t₁
            (dictGetD tv "variable2" "") (dictGetD tv "variable3" "") := by
  rw [send_message_valid _ _ _ _ hrec htn hup]
  exact ⟨_, payloads_from_getD template_name
    (pySplit (dictGetD tv "variable1" "") ',') tv recipients 0 tv j hj
    (fun k _ => rfl) rfl rfl⟩

/-- Claim C6, witness: the theorem applied to one recipient with
`variable2` set to `"V2"`. -/
theorem send_payload_shape_witness :
    ∃ t₁,
      (send_message ⟨some ["a"], some "welcome", some [("variable2", "V2")]⟩
          jsonUpstream).sent.getD 0 emptyPayload
        = mkPayload "welcome" "a" t₁ "V2" "" :=
  send_payload_shape ["a"] "welcome" [("variable2", "V2")] jsonUpstream
    (by decide) (by decide) (fun k => rfl) 0 (by decide)

/-- Claim C7: `iso_to_unix` maps `"2023-12-01T00:00:00"` to `1701388800`
(its epoch value with the server's local zone taken as UTC), and the
conversion round-trips: `1701388800` seconds after the epoch is again
2023-12-01 00:00:00. -/
theorem iso_to_unix_roundtrip :
    iso_to_unix "2023-12-01T00:00:00" = some 1701388800 ∧
    unix_to_datetime 1701388800 = ⟨2023, 12, 1, 0, 0, 0⟩ :=
  ⟨by decide, by decide⟩

/-- Claim C8: each analytics endpoint answers HTTP 400 (with its static
error body) to a request missing `start_date` or `end_date`, and issues
no upstream call. -/
theorem analytics_missing_dates_rejected
    (access_token : String) (data : AnalyticsRequest) (upstream : GetOutcome)
    (h : data.start_date = none ∨ data.end_date = none) :
    get_conversation_analytics access_token data upstream
        = { calls := [], outcome := .ok (400, datesRequiredBody) } ∧
    get_template_analytics access_token data upstream
        = { calls := [], outcome := .ok (400, templateParamsRequiredBody) } ∧
    get_messaging_analytics access_token data upstream
        = { calls := [], outcome := .ok (400, datesRequiredBody) } := by
  obtain ⟨sd, ed, g, tids⟩ := data
  rcases h with h | h <;> subst h <;>
    refine ⟨?_, ?_, ?_⟩ <;>
    first
      | rfl
      | (cases sd <;> rfl)

/-- Claim C8, witness: the theorem applied to a request carrying only an
`end_date`, against a live upstream. -/
theorem analytics_missing_dates_rejected_witness :
    get_conversation_analytics "tok" ⟨none, some "2023-12-01T00:00:00", none, none⟩
        respData
      = { calls := [], outcome := .ok (400, datesRequiredBody) } ∧
    get_template_analytics "tok" ⟨none, some "2023-12-01T00:00:00", none, none⟩
        respData
      = { calls := [], outcome := .ok (400, templateParamsRequiredBody) } :=
  have h := analytics_missing_dates_rejected "tok"
    ⟨none, some "2023-12-01T00:00:00", none, none⟩ respData (Or.inl rfl)
  ⟨h.1, h.2.1⟩

/-- Claim C9: the synthesized `user{i+1}` keys share the namespace of the
caller's `template_variables`: at a position `i` on or past the end of the
split `variable1` list, a caller-supplied key `user{i+1}` becomes that
recipient's first body parameter. -/
theorem send_userKey_collision
    (recipients : List String) (template_name : String) (tv : Dict)
    (upstream : Nat → PostOutcome) (i : Nat) (v : String)
    (hrec : recipients ≠ []) (htn : template_name ≠ "")
    (hup : ∀ k, (upstream k).isJson = true)
    (hi : i < recipients.length)
    (hlen : (pySplit (dictGetD tv "variable1" "") ',').length ≤ i)
    (hkey : dictGet tv (userKey i) = some v) :
    firstText
      ((send_message ⟨some recipients, some template_name, some tv⟩ upstream).sent.getD
        i emptyPayload) = v := by
  rw [send_message_valid _ _ _ _ hrec htn hup]
  have hm := payloads_from_getD template_name
    (pySplit (dictGetD tv "variable1" "") ',') tv recipients 0 tv i hi
    (fun k _ => rfl) rfl rfl
  simp only [Nat.zero_add] at hm
  rw [hm, firstText_mkPayload, if_neg (by omega)]
  unfold dictGetD
  rw [hkey]
  rfl

/-- Claim C9, witness: recipients `["a","b"]`, `variable1 = "X"` (one
name) and a caller-supplied `"user2": "Z"`; the second recipient's first
body parameter is `"Z"`. -/
theorem send_userKey_collision_witness :
    firstText
      ((send_message ⟨some ["a", "b"], some "welcome",
          some [("variable1", "X"), ("user2", "Z")]⟩ jsonUpstream).sent.getD
        1 emptyPayload) = "Z" :=
  send_userKey_collision ["a", "b"] "welcome" [("variable1", "X"), ("user2", "Z")]
    jsonUpstream 1 "Z" (by decide) (by decide) (fun k => rfl)
    (by decide) (by decide) (by decide)

/-- Claim C10: with `start_date` and `end_date` present and `granularity`
absent, `/conversation_analytics` is not rejected and queries with
granularity `MONTHLY`, while `/template_analytics` passes `granularity`
as `None` (dropped from the query by `requests`) and
`/messaging_analytics` interpolates the Python literal `None` — neither
applies the `MONTHLY` default. -/
theorem granularity_default_conversation_only
    (access_token sd ed : String) (tids : List String) (su eu : Int)
    (upstream : GetOutcome)
    (hs : iso_to_unix sd = some su) (he : iso_to_unix ed = some eu) :
    ((get_conversation_analytics access_token ⟨some sd, some ed, none, some tids⟩
        upstream).calls
      = [.fieldsQuery "https://graph.facebook.com/v18.0/118254494612532"
          ("conversation_analytics.start(" ++ toString su ++ ").end("
            ++ toString eu ++ ").granularity(" ++ "MONTHLY"
            ++ ").phone_numbers([]).dimensions(['CONVERSATION_CATEGORY','CONVERSATION_TYPE','COUNTRY','PHONE'])")
          access_token]) ∧
    ((get_template_analytics access_token ⟨some sd, some ed, none, some tids⟩
        upstream).calls
      = [.templateQuery
          "https://graph.facebook.com/v18.0/118254494612532/template_analytics"
          su eu none "['SENT','DELIVERED','READ','CLICKED']" tids access_token]) ∧
    ((get_messaging_analytics access_token ⟨some sd, some ed, none, some tids⟩
        upstream).calls
      = [.fieldsQuery "https://graph.facebook.com/v18.0/118254494612532"
          ("analytics.start(" ++ toString su ++ ").end(" ++ toString eu
            ++ ").granularity(" ++ "None" ++ ")")
          access_token]) := by
  refine ⟨?_, ?_, ?_⟩
  · simp only [get_conversation_analytics, hs, he]
    exact relayAnalytics_calls _ _
  · simp only [get_template_analytics, hs, he]
    exact relayAnalytics_calls _ _
  · simp only [get_messaging_analytics, hs, he]
    exact relayAnalytics_calls _ _

/-- Claim C10, witness: the theorem applied to concrete dates (both
`"2023-12-01T00:00:00"`, epoch `1701388800`), one template id and an
upstream 200. -/
theorem granularity_default_conversation_only_witness :
    (get_conversation_analytics "tok"
        ⟨some "2023-12-01T00:00:00", some "2023-12-01T00:00:00", none, some ["tid1"]⟩
        respData).calls
      = [.fieldsQuery "https://graph.facebook.com/v18.0/118254494612532"
          ("conversation_analytics.start(" ++ toString (1701388800 : Int) ++ ").end("
            ++ toString (1701388800 : Int) ++ ").granularity(" ++ "MONTHLY"
            ++ ").phone_numbers([]).dimensions(['CONVERSATION_CATEGORY','CONVERSATION_TYPE','COUNTRY','PHONE'])")
          "tok"] ∧
    (get_template_analytics "tok"
        ⟨some "2023-12-01T00:00:00", some "2023-12-01T00:00:00", none, some ["tid1"]⟩
        respData).calls
      = [.templateQuery
          "https://graph.facebook.com/v18.0/118254494612532/template_analytics"
          1701388800 1701388800 none "['SENT','DELIVERED','READ','CLICKED']"
          ["tid1"] "tok"] :=
  have h := granularity_default_conversation_only "tok" "2023-12-01T00:00:00"
    "2023-12-01T00:00:00" ["tid1"] 1701388800 1701388800 respData
    (by decide) (by decide)
  ⟨h.1, h.2.1⟩

end WaApi
